import Mathlib

/-!
Verification development for the Koito listen-ingestion core: a shallow
embedding, in Lean 4, of the Spotify bulk importer (`ImportSpotifyFile`,
internal/importer/spotify.go) and of the Spotify image-provider client
(`SpotifyClient` with `authenticate` / `ensureToken` / `searchEntity` /
`GetArtistImages`, internal/images), together with theorems settling the
specification claims about them.

Conventions of the embedding:
* Timestamps and durations are `Int`.  Import timestamps are in nanoseconds
  (Go `time.Time.Sub` yields a nanosecond-valued `time.Duration`, compared
  against `5 * time.Second`); token-expiry arithmetic is in seconds
  (`expiresIn` is delivered in seconds and the margin is `5 * time.Minute`
  = 300 s).
* Go string functions (`strings.ToLower`, `strings.EqualFold`,
  `strings.Contains`) are modelled character-wise; `Char.toLower` models the
  ASCII/simple case folding used by every string appearing in the claims.
* Fallible Go functions return `Except GoErr` / `Option GoErr`; the error
  values mirror how the source builds them (`errors.New` leaves, an
  `fmt.Errorf("f: %w", err)` wrap, and abstract codes for errors produced by
  collaborators outside the included sources).
* External collaborators (`catalog.SubmitListen`, the network, the
  romanizer, the configuration getters) enter as explicit function
  parameters; the outbound calls a run performs are collected in a trace.
-/

/-! ## Go string primitives (character-wise models) -/

/-- Model of Go `strings.ToLower` (simple per-character folding). -/
def goToLower (s : String) : String := String.mk (s.data.map Char.toLower)

/-- Model of Go `strings.EqualFold`: equality up to simple case folding. -/
def goEqualFold (a b : String) : Bool := goToLower a == goToLower b

/-- `charsStartWith s pat` holds when `pat` is a prefix of `s`. -/
def charsStartWith : List Char → List Char → Bool
  | _, [] => true
  | [], _ :: _ => false
  | c :: cs, p :: ps => c == p && charsStartWith cs ps

/-- `charsContain s pat` holds when `pat` occurs contiguously inside `s`. -/
def charsContain : List Char → List Char → Bool
  | [], pat => pat.isEmpty
  | c :: cs, pat => charsStartWith (c :: cs) pat || charsContain cs pat

/-- Model of Go `strings.Contains sub ⊆ s` (substring occurrence). -/
def goContains (s sub : String) : Bool := charsContain s.data sub.data

/-! ## Shared error model -/

/-- Go `error` values as the sources build them: `errors.New` / leaf
messages, `fmt.Errorf("name: %w", err)` wrapping, and abstract codes for
errors coming back from collaborators that are outside the included
sources (`catalog.SubmitListen`, HTTP transport). -/
inductive GoErr where
  | msg (text : String)
  | wrap (fname : String) (inner : GoErr)
  | submitFailed (code : Nat)
  | netFailed (code : Nat)
deriving DecidableEq, Repr

/-! ## Bulk importer (`ImportSpotifyFile`, internal/importer/spotify.go) -/

/-- One element of the decoded Spotify export array (`SpotifyExportItem`).
`timestamp` is in nanoseconds; `msPlayed` carries the value of the Go
`int32` field `ms_played`. -/
structure SpotifyExportItem where
  timestamp : Int
  trackName : String
  artistName : String
  albumName : String
  reasonEnd : String
  msPlayed : Int
deriving DecidableEq, Repr

/-- The options record handed to `catalog.SubmitListen` (the constant
`MbzCaller` field carries no data and is omitted). -/
structure SubmitListenOpts where
  artist : String
  trackTitle : String
  releaseTitle : String
  duration : Int
  time : Int
  client : String
  userID : Int
  skipCacheImage : Bool
deriving DecidableEq, Repr

/-- Configuration values the importer reads (`cfg.FetchImagesDuringImport`,
and the time-window rule evaluated by `inImportTimeWindow`, a function of
the importer package whose body is outside the included sources — it is
kept abstract as a predicate on timestamps). -/
structure ImportCfg where
  fetchImagesDuringImport : Bool
  inWindow : Int → Bool

/-- Nanoseconds in one second (`time.Second`). -/
def nsPerSecond : Int := 1000000000

/-- The per-file duplicate map `lastImported`, keyed by strings, valued by
timestamps.  Updates prepend; lookup returns the most recent binding, which
matches Go map overwrite semantics for the lookups performed. -/
def KeyMap : Type := List (String × Int)

/-- Go map read `m[key]` with its `exists` flag as an `Option`. -/
def mapGet (m : KeyMap) (k : String) : Option Int :=
  match m with
  | [] => none
  | (k', v) :: rest => if k' == k then some v else mapGet rest k

/-- Go map write `m[key] = v`. -/
def mapSet (m : KeyMap) (k : String) (v : Int) : KeyMap := (k, v) :: m

/-- The duplicate-map key built at line 66:
`item.ArtistName + "|" + item.TrackName + "|" + item.AlbumName`. -/
def dupKey (i : SpotifyExportItem) : String :=
  i.artistName ++ "|" ++ i.trackName ++ "|" ++ i.albumName

/-- The near-duplicate test at line 67: the key is present and
`item.Timestamp.Sub(prevTime) < 5*time.Second` (a signed comparison). -/
def isDupe (m : KeyMap) (key : String) (ts : Int) : Bool :=
  match mapGet m key with
  | some prev => decide (ts - prev < 5 * nsPerSecond)
  | none => false

/-- How the loop body of `ImportSpotifyFile` disposes of one record. -/
inductive RecordFate where
  | filteredReason
  | filteredWindow
  | filteredName
  | filteredDupe
  | accepted
deriving DecidableEq, Repr

/-- The chain of `continue` filters in the loop body of
`ImportSpotifyFile` (lines 52–70), in source order: completion reason,
time window, empty names, near-duplicate. -/
def recordFate (cfg : ImportCfg) (m : KeyMap) (i : SpotifyExportItem) : RecordFate :=
  if i.reasonEnd != "trackdone" then .filteredReason
  else if !cfg.inWindow i.timestamp then .filteredWindow
  else if i.trackName == "" || i.artistName == "" then .filteredName
  else if isDupe m (dupKey i) i.timestamp then .filteredDupe
  else .accepted

/-- The `SubmitListenOpts` built for a surviving record (lines 71–81):
duration is the Go `int32` division `dur / 1000` (truncation toward zero,
`Int.tdiv`), client is the literal `"spotify"`, user id 1, and the
image-fetch skip flag is `!cfg.FetchImagesDuringImport()`. -/
def mkOpts (cfg : ImportCfg) (i : SpotifyExportItem) : SubmitListenOpts :=
  { artist := i.artistName
    trackTitle := i.trackName
    releaseTitle := i.albumName
    duration := Int.tdiv i.msPlayed 1000
    time := i.timestamp
    client := "spotify"
    userID := 1
    skipCacheImage := !cfg.fetchImagesDuringImport }

/-- The record loop of `ImportSpotifyFile` (lines 51–90).  `submit` is the
`catalog.SubmitListen` collaborator (`none` = success, `some code` = the
error it returned).  The result collects, in order, the `SubmitListen`
calls that were made, the final duplicate map, and the error the loop
returns (`none` when the loop runs to completion; the success path then
goes on to `finishImport`, which is outside the loop and irrelevant to the
claims).  On a submit error the source returns
`fmt.Errorf("ImportSpotifyFile: %w", err)` at once, without updating
`lastImported` for the failing record. -/
def importRun (cfg : ImportCfg) (submit : SubmitListenOpts → Option Nat) :
    List SpotifyExportItem → KeyMap → List SubmitListenOpts × KeyMap × Option GoErr
  | [], m => ([], m, none)
  | i :: rest, m =>
    match recordFate cfg m i with
    | .accepted =>
      let opts := mkOpts cfg i
      match submit opts with
      | some e => ([opts], m, some (GoErr.wrap "ImportSpotifyFile" (GoErr.submitFailed e)))
      | none =>
        let r := importRun cfg submit rest (mapSet m (dupKey i) i.timestamp)
        (opts :: r.1, r.2.1, r.2.2)
    | _ => importRun cfg submit rest m

/-- The specification's reading of "within 5 seconds of the remembered
one": the absolute distance between the two timestamps is below 5 s. -/
def within5SecondsSpec (ts prev : Int) : Bool :=
  decide (-(5 * nsPerSecond) < ts - prev ∧ ts - prev < 5 * nsPerSecond)

/-! ## Spotify provider client (internal/images, authenticated version) -/

/-- The `spotify.SearchType` selector passed to `client.Search`. -/
inductive SearchType where
  | artist
  | album
deriving DecidableEq, Repr

/-- One entry of a provider entity's `Images` array (only the `URL` field
is read). -/
structure SpotifyImage where
  url : String
deriving DecidableEq, Repr

/-- A provider artist entity as read by the cascade: `Name` and `Images`. -/
structure SpotifyArtistObj where
  name : String
  images : List SpotifyImage
deriving DecidableEq, Repr

/-- A provider album entity as read by the cascade: `Name` and `Images`. -/
structure SpotifyAlbumObj where
  name : String
  images : List SpotifyImage
deriving DecidableEq, Repr

/-- A `spotify.SearchResult`: the `Artists` / `Albums` pages may be `nil`
(`none`) or carry a list of entities. -/
structure SearchResult where
  artistsPage : Option (List SpotifyArtistObj)
  albumsPage : Option (List SpotifyAlbumObj)
deriving DecidableEq, Repr

/-- The mutable authentication state of the long-lived `SpotifyClient`:
`accessToken` and `tokenExpiry` (seconds). -/
structure ClientState where
  accessToken : String
  tokenExpiry : Int
deriving DecidableEq, Repr

/-- The collaborators a client run reads: the clock (`time.Now`, seconds),
the configured credentials (`cfg.SpotifyClientId` / `cfg.SpotifyClientSecret`),
the outcome the token endpoint would deliver (`access_token`, `expires_in`
seconds), the outcome `client.Search` would deliver per query, and
`romanizer.Romanize` (repository code outside the included sources, kept as
an uninterpreted function; the empty string means "no romanization",
matching the source's `if romanized != ""` guard). -/
structure SpotifyEnv where
  now : Int
  clientID : String
  clientSecret : String
  authResult : Except GoErr (String × Int)
  search : String → SearchType → Except GoErr SearchResult
  romanize : String → String

/-- The outbound calls a client run performs.  `searchEntity` (line 515)
invokes `c.client.Search` directly, which is recorded as `directSearch`;
`queuedSearch` stands for a search submitted through
`c.requestQueue.Submit` — no function of the source ever does this (the
queue is created at line 416 and stopped in `Shutdown`, and is otherwise
unused), so no definition below emits it. -/
inductive SpotifyEvent where
  | tokenRequest
  | directSearch (query : String) (ty : SearchType)
  | queuedSearch (query : String) (ty : SearchType)
deriving DecidableEq, Repr

/-- Predicate for a network search issued directly (not via the queue). -/
def isDirectSearch : SpotifyEvent → Bool
  | .directSearch _ _ => true
  | _ => false

/-- Predicate for a search routed through the Request Queue's `Submit`. -/
def isQueuedSearch : SpotifyEvent → Bool
  | .queuedSearch _ _ => true
  | _ => false

/-- Predicate for a call to the client-credentials token endpoint. -/
def isTokenRequest : SpotifyEvent → Bool
  | .tokenRequest => true
  | _ => false

/-- `SpotifyClient.authenticate` (lines 436–490): bail out before any
request when either credential is unconfigured; otherwise POST to the
token endpoint (one `tokenRequest` event, made whether or not it
succeeds); on success store the token and set
`tokenExpiry = time.Now().Add(ExpiresIn seconds)`.  The distinct Go error
messages of the failure paths are abstracted into the carried error. -/
def authenticate (env : SpotifyEnv) (s : ClientState) :
    List SpotifyEvent × ClientState × Option GoErr :=
  if env.clientID == "" || env.clientSecret == "" then
    ([], s, some (GoErr.msg "Spotify client ID or secret not configured"))
  else
    match env.authResult with
    | .error e => ([.tokenRequest], s, some e)
    | .ok (tok, expiresIn) =>
      ([.tokenRequest], { accessToken := tok, tokenExpiry := env.now + expiresIn }, none)

/-- The staleness test of `ensureToken` (line 493):
`c.accessToken == "" || time.Now().After(c.tokenExpiry.Add(-5*time.Minute))`,
i.e. the token is absent or the current time is strictly past the expiry
timestamp minus the 300 s margin. -/
def staleToken (env : SpotifyEnv) (s : ClientState) : Bool :=
  s.accessToken == "" || decide (env.now > s.tokenExpiry - 300)

/-- `SpotifyClient.ensureToken` (lines 492–498): refresh via
`authenticate` exactly when the cached token is stale, otherwise do
nothing. -/
def ensureToken (env : SpotifyEnv) (s : ClientState) :
    List SpotifyEvent × ClientState × Option GoErr :=
  if staleToken env s then authenticate env s else ([], s, none)

/-- `SpotifyClient.searchEntity` (lines 505–522): first `ensureToken`
(propagating its failure wrapped as `searchEntity: %w`), then
`c.client.Search(ctx, query, searchType)` — a direct network call, not a
`requestQueue.Submit` task — whose failure is wrapped the same way. -/
def searchEntity (env : SpotifyEnv) (s : ClientState) (query : String) (ty : SearchType) :
    List SpotifyEvent × ClientState × Except GoErr SearchResult :=
  let a := ensureToken env s
  match a.2.2 with
  | some e => (a.1, a.2.1, .error (GoErr.wrap "searchEntity" e))
  | none =>
    match env.search query ty with
    | .error e => (a.1 ++ [.directSearch query ty], a.2.1, .error (GoErr.wrap "searchEntity" e))
    | .ok r => (a.1 ++ [.directSearch query ty], a.2.1, .ok r)

/-- Modelled from the spec: `utils.UniqueIgnoringCase` (internal/utils) is
repository code outside the included sources.  The cascade iterates over
case-insensitively de-duplicated aliases; modelled as keeping the first
occurrence of each case-folded name, in input order. -/
def uniqueIgnoringCaseAux (seen : List String) : List String → List String
  | [] => []
  | x :: xs =>
    if seen.contains (goToLower x) then uniqueIgnoringCaseAux seen xs
    else x :: uniqueIgnoringCaseAux (goToLower x :: seen) xs

/-- Modelled from the spec: entry point of `utils.UniqueIgnoringCase`. -/
def uniqueIgnoringCase (xs : List String) : List String := uniqueIgnoringCaseAux [] xs

/-- The acceptance test of the romanized strategy of `GetArtistImages`
(line 538): `strings.EqualFold(artist.Name, romanized) ||
strings.EqualFold(artist.Name, a) ||
strings.Contains(strings.ToLower(artist.Name), strings.ToLower(a))`. -/
def accept1 (a romanized name : String) : Bool :=
  goEqualFold name romanized || goEqualFold name a ||
    goContains (goToLower name) (goToLower a)

/-- The acceptance test of the later strategies (lines 558, 577, 602):
`strings.EqualFold(artist.Name, a) ||
strings.Contains(strings.ToLower(artist.Name), strings.ToLower(a))`. -/
def accept0 (a name : String) : Bool :=
  goEqualFold name a || goContains (goToLower name) (goToLower a)

/-- The inner result loop shared by every strategy: scan the returned
entities in order; on the first whose name passes `accept` AND whose
`Images` array is nonempty, return `Images[0].URL`; an accepted entity
without images does not return — the loop continues. -/
def firstAcceptedImage (accept : String → Bool) : List SpotifyArtistObj → Option String
  | [] => none
  | art :: rest =>
    if accept art.name then
      match art.images with
      | img :: _ => some img.url
      | [] => firstAcceptedImage accept rest
    else firstAcceptedImage accept rest

/-- Outcome of one strategy of the cascade: a hit, no hit, or a search
error (which `GetArtistImages` propagates at once). -/
inductive StratOut where
  | found (url : String)
  | noMatch
  | failed (e : GoErr)
deriving DecidableEq, Repr

/-- Strategy 1 of `GetArtistImages` (lines 529–548): per alias, if the
romanization is nonempty, search `artist:"<romanized>"` and scan the
artists page (a `nil` page, like an empty one, yields nothing) with the
three-disjunct test `accept1`. -/
def strat1 (env : SpotifyEnv) : List String → ClientState →
    List SpotifyEvent × ClientState × StratOut
  | [], s => ([], s, .noMatch)
  | a :: rest, s =>
    let romanized := env.romanize a
    if romanized == "" then strat1 env rest s
    else
      let r := searchEntity env s ("artist:\"" ++ romanized ++ "\"") .artist
      match r.2.2 with
      | .error e => (r.1, r.2.1, .failed (GoErr.wrap "GetArtistImages" e))
      | .ok res =>
        match firstAcceptedImage (accept1 a romanized) (res.artistsPage.getD []) with
        | some url => (r.1, r.2.1, .found url)
        | none =>
          let t := strat1 env rest r.2.1
          (r.1 ++ t.1, t.2.1, t.2.2)

/-- Strategy 2 of `GetArtistImages` (lines 551–567): per alias, search the
exact-phrase query `artist:"<alias>"` on the original form, accepting with
`accept0`. -/
def strat2 (env : SpotifyEnv) : List String → ClientState →
    List SpotifyEvent × ClientState × StratOut
  | [], s => ([], s, .noMatch)
  | a :: rest, s =>
    let r := searchEntity env s ("artist:\"" ++ a ++ "\"") .artist
    match r.2.2 with
    | .error e => (r.1, r.2.1, .failed (GoErr.wrap "GetArtistImages" e))
    | .ok res =>
      match firstAcceptedImage (accept0 a) (res.artistsPage.getD []) with
      | some url => (r.1, r.2.1, .found url)
      | none =>
        let t := strat2 env rest r.2.1
        (r.1 ++ t.1, t.2.1, t.2.2)

/-- Strategy 3 of `GetArtistImages` (lines 570–586): per alias, search the
unquoted query `artist:<alias>`, accepting with `accept0`. -/
def strat3 (env : SpotifyEnv) : List String → ClientState →
    List SpotifyEvent × ClientState × StratOut
  | [], s => ([], s, .noMatch)
  | a :: rest, s =>
    let r := searchEntity env s ("artist:" ++ a) .artist
    match r.2.2 with
    | .error e => (r.1, r.2.1, .failed (GoErr.wrap "GetArtistImages" e))
    | .ok res =>
      match firstAcceptedImage (accept0 a) (res.artistsPage.getD []) with
      | some url => (r.1, r.2.1, .found url)
      | none =>
        let t := strat3 env rest r.2.1
        (r.1 ++ t.1, t.2.1, t.2.2)

/-- The combined query of strategy 4 (lines 590–594):
`artist:"a1" OR artist:"a2" OR ...` over the de-duplicated aliases. -/
def combinedQuery (aliases : List String) : String :=
  String.intercalate " OR " (aliases.map (fun a => "artist:\"" ++ a ++ "\""))

/-- The nested result loop of strategy 4 (lines 600–610): for each
returned artist, each alias is tried with `accept0`; since the
`len(Images) > 0` test does not depend on the alias, this equals scanning
with "some alias accepts". -/
def anyAliasAccepts (aliases : List String) (name : String) : Bool :=
  aliases.any (fun a => accept0 a name)

/-- Strategy 4 of `GetArtistImages` (lines 589–612): one search with the
OR-combined exact-phrase query (the caller only runs it when more than one
alias remains). -/
def strat4 (env : SpotifyEnv) (aliases : List String) (s : ClientState) :
    List SpotifyEvent × ClientState × StratOut :=
  let r := searchEntity env s (combinedQuery aliases) .artist
  match r.2.2 with
  | .error e => (r.1, r.2.1, .failed (GoErr.wrap "GetArtistImages" e))
  | .ok res =>
    match firstAcceptedImage (anyAliasAccepts aliases) (res.artistsPage.getD []) with
    | some url => (r.1, r.2.1, .found url)
    | none => (r.1, r.2.1, .noMatch)

/-- The sentinel returned when the whole cascade misses (line 614):
`errors.New("GetArtistImages: artist image not found")`. -/
def artistNotFoundErr : GoErr := GoErr.msg "GetArtistImages: artist image not found"

/-- `SpotifyClient.GetArtistImages` (lines 524–615): de-duplicate the
aliases, then run strategies 1–3 in order, run strategy 4 only when more
than one alias remains, stop at the first strategy that finds an image
(propagating any search error at once), and report the not-found sentinel
when every strategy misses. -/
def getArtistImages (env : SpotifyEnv) (s : ClientState) (aliases : List String) :
    List SpotifyEvent × ClientState × Except GoErr String :=
  let u := uniqueIgnoringCase aliases
  let t1 := strat1 env u s
  match t1.2.2 with
  | .found url => (t1.1, t1.2.1, .ok url)
  | .failed e => (t1.1, t1.2.1, .error e)
  | .noMatch =>
    let t2 := strat2 env u t1.2.1
    match t2.2.2 with
    | .found url => (t1.1 ++ t2.1, t2.2.1, .ok url)
    | .failed e => (t1.1 ++ t2.1, t2.2.1, .error e)
    | .noMatch =>
      let t3 := strat3 env u t2.2.1
      match t3.2.2 with
      | .found url => (t1.1 ++ t2.1 ++ t3.1, t3.2.1, .ok url)
      | .failed e => (t1.1 ++ t2.1 ++ t3.1, t3.2.1, .error e)
      | .noMatch =>
        if u.length > 1 then
          let t4 := strat4 env u t3.2.1
          match t4.2.2 with
          | .found url => (t1.1 ++ t2.1 ++ t3.1 ++ t4.1, t4.2.1, .ok url)
          | .failed e => (t1.1 ++ t2.1 ++ t3.1 ++ t4.1, t4.2.1, .error e)
          | .noMatch => (t1.1 ++ t2.1 ++ t3.1 ++ t4.1, t4.2.1, .error artistNotFoundErr)
        else (t1.1 ++ t2.1 ++ t3.1, t3.2.1, .error artistNotFoundErr)

/-- The acceptance rule of the romanized strategy as the specification
words it: the returned name case-insensitively "equals or contains the
alias or its romanization" — four disjuncts, including containment of the
romanization. -/
def accept1Spec (a romanized name : String) : Bool :=
  goEqualFold name a || goEqualFold name romanized ||
    goContains (goToLower name) (goToLower a) ||
    goContains (goToLower name) (goToLower romanized)

/-! ## Concrete fixtures for the importer claims -/

/-- A configuration with image fetching off and every timestamp inside
the time window. -/
def cfgAll : ImportCfg := { fetchImagesDuringImport := false, inWindow := fun _ => true }

/-- A `SubmitListen` collaborator that always succeeds. -/
def submitOK : SubmitListenOpts → Option Nat := fun _ => none

/-- A `SubmitListen` collaborator that fails (with error code 7) exactly on
track title `"BAD"`. -/
def submitSel : SubmitListenOpts → Option Nat :=
  fun o => if o.trackTitle == "BAD" then some 7 else none

/-- Builds a fully-played export record. -/
def mkItem (artist track album : String) (ts : Int) : SpotifyExportItem :=
  { timestamp := ts, trackName := track, artistName := artist, albumName := album,
    reasonEnd := "trackdone", msPlayed := 271000 }

/-- Record with triple (X, Y, Z) at t = 6 s. -/
def itemY6 : SpotifyExportItem := mkItem "X" "Y" "Z" (6 * nsPerSecond)

/-- A duplicate map remembering (X, Y, Z) at t = 0. -/
def mapY0 : KeyMap := [("X|Y|Z", 0)]

/-! ## C2 — near-duplicate suppression -/

/-- C2 (amended): for a record that survives the reason, window and
empty-name filters and whose key has a remembered timestamp `prev`, the
record is discarded if and only if the signed difference
`timestamp - prev` is below 5 seconds (so a record timestamped arbitrarily
far *before* the remembered one is also discarded); otherwise it is
accepted, submitted, and the remembered timestamp for the key is updated
to the record's timestamp. -/
theorem import_dupe_suppression (cfg : ImportCfg) (submit : SubmitListenOpts → Option Nat)
    (i : SpotifyExportItem) (rest : List SpotifyExportItem) (m : KeyMap) (prev : Int)
    (h1 : i.reasonEnd = "trackdone")
    (h2 : cfg.inWindow i.timestamp = true)
    (h3 : i.trackName ≠ "")
    (h4 : i.artistName ≠ "")
    (h5 : mapGet m (dupKey i) = some prev) :
    (recordFate cfg m i = .filteredDupe ↔ i.timestamp - prev < 5 * nsPerSecond) ∧
    (recordFate cfg m i = .filteredDupe →
      importRun cfg submit (i :: rest) m = importRun cfg submit rest m) ∧
    (¬ i.timestamp - prev < 5 * nsPerSecond →
      submit (mkOpts cfg i) = none →
      importRun cfg submit (i :: rest) m =
        (mkOpts cfg i :: (importRun cfg submit rest (mapSet m (dupKey i) i.timestamp)).1,
         (importRun cfg submit rest (mapSet m (dupKey i) i.timestamp)).2.1,
         (importRun cfg submit rest (mapSet m (dupKey i) i.timestamp)).2.2)) ∧
    mapGet (mapSet m (dupKey i) i.timestamp) (dupKey i) = some i.timestamp := by
  have hfate : recordFate cfg m i =
      (if i.timestamp - prev < 5 * nsPerSecond then RecordFate.filteredDupe
       else RecordFate.accepted) := by
    simp [recordFate, h1, h2, h3, h4, isDupe, h5]
  refine ⟨?_, ?_, ?_, ?_⟩
  · constructor
    · intro hd
      rw [hfate] at hd
      by_contra hlt
      simp [hlt] at hd
    · intro hlt
      rw [hfate]
      simp [hlt]
  · intro hd
    simp only [importRun]
    rw [hd]
  · intro hlt hsub
    have hacc : recordFate cfg m i = RecordFate.accepted := by
      rw [hfate]; simp [hlt]
    simp only [importRun]
    rw [hacc]
    simp [hsub]
  · simp [mapGet, mapSet]

/-- Witness for `import_dupe_suppression` at a record 6 s after the
remembered timestamp. -/
theorem import_dupe_suppression_witness :
    (itemY6.reasonEnd = "trackdone" ∧ cfgAll.inWindow itemY6.timestamp = true ∧
     itemY6.trackName ≠ "" ∧ itemY6.artistName ≠ "" ∧
     mapGet mapY0 (dupKey itemY6) = some 0) ∧
    ((recordFate cfgAll mapY0 itemY6 = .filteredDupe ↔
        itemY6.timestamp - 0 < 5 * nsPerSecond) ∧
     (recordFate cfgAll mapY0 itemY6 = .filteredDupe →
       importRun cfgAll submitOK [itemY6] mapY0 = importRun cfgAll submitOK [] mapY0) ∧
     (¬ itemY6.timestamp - 0 < 5 * nsPerSecond →
       submitOK (mkOpts cfgAll itemY6) = none →
       importRun cfgAll submitOK [itemY6] mapY0 =
         (mkOpts cfgAll itemY6 ::
            (importRun cfgAll submitOK [] (mapSet mapY0 (dupKey itemY6) itemY6.timestamp)).1,
          (importRun cfgAll submitOK [] (mapSet mapY0 (dupKey itemY6) itemY6.timestamp)).2.1,
          (importRun cfgAll submitOK [] (mapSet mapY0 (dupKey itemY6) itemY6.timestamp)).2.2)) ∧
     mapGet (mapSet mapY0 (dupKey itemY6) itemY6.timestamp) (dupKey itemY6) =
       some itemY6.timestamp) :=
  ⟨⟨rfl, rfl, by decide, by decide, by decide⟩,
   import_dupe_suppression cfgAll submitOK itemY6 [] mapY0 0
     rfl rfl (by decide) (by decide) (by decide)⟩

/-- Counterexample to C2 as stated: `itemLate100` is accepted at t = 100 s,
then `itemEarly0` — the same (artist, track, release) triple at t = 0 —
arrives.  Its timestamp is 100 s away from the remembered one, so it is
*not* within 5 seconds and the claim demands it be accepted (two
submissions); the loop compares the signed difference
`0 - 100 s = -100 s < 5 s` and discards it (one submission). -/
theorem import_dupe_suppression_cex :
    (importRun cfgAll submitOK
        [mkItem "X" "Y" "Z" (100 * nsPerSecond), mkItem "X" "Y" "Z" 0] []).1.length = 1 ∧
    within5SecondsSpec 0 (100 * nsPerSecond) = false := by decide

/-! ## C3 — fail-fast on SubmitListen error -/

/-- C3 (amended): when `SubmitListen` fails on an accepted record, the
loop stops at once — the only call made from that record on is the failing
one (nothing after it is filtered or submitted), the duplicate map is
returned without the failing record's key update, and the caller receives
exactly the wrapped submit error `ImportSpotifyFile: %w`, a value that
carries no count of records processed. -/
theorem import_fail_fast (cfg : ImportCfg) (submit : SubmitListenOpts → Option Nat)
    (i : SpotifyExportItem) (rest : List SpotifyExportItem) (m : KeyMap) (e : Nat)
    (hacc : recordFate cfg m i = .accepted)
    (herr : submit (mkOpts cfg i) = some e) :
    importRun cfg submit (i :: rest) m =
      ([mkOpts cfg i], m, some (GoErr.wrap "ImportSpotifyFile" (GoErr.submitFailed e))) := by
  simp only [importRun]
  rw [hacc]
  simp [herr]

/-- Witness for `import_fail_fast`: the failing record is followed by
another record which is never reached. -/
theorem import_fail_fast_witness :
    (recordFate cfgAll [] (mkItem "X" "BAD" "Z" 0) = .accepted ∧
     submitSel (mkOpts cfgAll (mkItem "X" "BAD" "Z" 0)) = some 7) ∧
    importRun cfgAll submitSel
        [mkItem "X" "BAD" "Z" 0, mkItem "X" "Y" "Z" (20 * nsPerSecond)] [] =
      ([mkOpts cfgAll (mkItem "X" "BAD" "Z" 0)], [],
       some (GoErr.wrap "ImportSpotifyFile" (GoErr.submitFailed 7))) :=
  ⟨⟨by decide, by decide⟩,
   import_fail_fast cfgAll submitSel (mkItem "X" "BAD" "Z" 0)
     [mkItem "X" "Y" "Z" (20 * nsPerSecond)] [] 7 (by decide) (by decide)⟩

/-- Counterexample to C3 as stated: two runs that fail on the same bad
record after processing different numbers of records (none, resp. one
successful submission) return the *identical* error value — so the failure
surfaced to the caller cannot carry the count of records processed so far;
the count (`len(export)`) reaches `finishImport` only on the all-records
success path. -/
theorem import_fail_fast_cex :
    (importRun cfgAll submitSel [mkItem "X" "BAD" "Z" 0] []).2.2 =
      some (GoErr.wrap "ImportSpotifyFile" (GoErr.submitFailed 7)) ∧
    (importRun cfgAll submitSel
        [mkItem "X" "Y" "Z" 0, mkItem "X" "BAD" "Z" 0] []).2.2 =
      some (GoErr.wrap "ImportSpotifyFile" (GoErr.submitFailed 7)) ∧
    (importRun cfgAll submitSel [mkItem "X" "BAD" "Z" 0] []).1.length = 1 ∧
    (importRun cfgAll submitSel
        [mkItem "X" "Y" "Z" 0, mkItem "X" "BAD" "Z" 0] []).1.length = 2 := by decide

/-! ## C8 — empty-name records are silently skipped -/

/-- C8: a record with an empty track name or an empty artist name is never
accepted, and processing it is a no-op — the run over `i :: rest` equals
the run over `rest`: no `SubmitListen` call is made for it (hence no
entities and no Listens arise from it), the duplicate map is unchanged, no
error is produced, and the loop continues with the next record. -/
theorem import_empty_name_skip (cfg : ImportCfg) (submit : SubmitListenOpts → Option Nat)
    (i : SpotifyExportItem) (rest : List SpotifyExportItem) (m : KeyMap)
    (h : i.trackName = "" ∨ i.artistName = "") :
    importRun cfg submit (i :: rest) m = importRun cfg submit rest m ∧
    recordFate cfg m i ≠ .accepted := by
  have hname : (i.trackName == "" || i.artistName == "") = true := by
    cases h with
    | inl h => simp [h]
    | inr h => simp [h]
  have hfate : recordFate cfg m i ≠ .accepted := by
    unfold recordFate
    split
    · decide
    · split
      · decide
      · decide
  refine ⟨?_, hfate⟩
  simp only [importRun]

/-- Witness for `import_empty_name_skip` on a record with an empty track
name. -/
theorem import_empty_name_skip_witness :
    ((mkItem "X" "" "Z" 0).trackName = "" ∨ (mkItem "X" "" "Z" 0).artistName = "") ∧
    (importRun cfgAll submitOK [mkItem "X" "" "Z" 0] [] =
       importRun cfgAll submitOK [] [] ∧
     recordFate cfgAll [] (mkItem "X" "" "Z" 0) ≠ .accepted) :=
  ⟨Or.inl rfl,
   import_empty_name_skip cfgAll submitOK (mkItem "X" "" "Z" 0) [] [] (Or.inl rfl)⟩

/-! ## C9 — payload of the SubmitListen call -/

/-- C9: the first `SubmitListen` call made for an accepted record carries
exactly `mkOpts`, whose duration is the truncating integer division of the
record's (32-bit) `ms_played` by 1000, whose client label is the literal
`"spotify"`, and whose image-skip flag is set exactly when the
fetch-images-during-import toggle is off. -/
theorem import_submit_payload (cfg : ImportCfg) (submit : SubmitListenOpts → Option Nat)
    (i : SpotifyExportItem) (rest : List SpotifyExportItem) (m : KeyMap)
    (hacc : recordFate cfg m i = .accepted) :
    (importRun cfg submit (i :: rest) m).1.head? = some (mkOpts cfg i) ∧
    (mkOpts cfg i).duration = Int.tdiv i.msPlayed 1000 ∧
    (mkOpts cfg i).client = "spotify" ∧
    (mkOpts cfg i).skipCacheImage = !cfg.fetchImagesDuringImport := by
  refine ⟨?_, rfl, rfl, rfl⟩
  simp only [importRun]
  rw [hacc]
  cases hs : submit (mkOpts cfg i) <;> simp [hs]

/-- Witness for `import_submit_payload` on a record played for 271000 ms
(duration 271 s). -/
theorem import_submit_payload_witness :
    recordFate cfgAll [] (mkItem "X" "Y" "Z" 0) = .accepted ∧
    ((importRun cfgAll submitOK [mkItem "X" "Y" "Z" 0] []).1.head? =
       some (mkOpts cfgAll (mkItem "X" "Y" "Z" 0)) ∧
     (mkOpts cfgAll (mkItem "X" "Y" "Z" 0)).duration =
       Int.tdiv (mkItem "X" "Y" "Z" 0).msPlayed 1000 ∧
     (mkOpts cfgAll (mkItem "X" "Y" "Z" 0)).client = "spotify" ∧
     (mkOpts cfgAll (mkItem "X" "Y" "Z" 0)).skipCacheImage =
       !cfgAll.fetchImagesDuringImport) :=
  ⟨by decide,
   import_submit_payload cfgAll submitOK (mkItem "X" "Y" "Z" 0) [] [] (by decide)⟩

/-! ## C10 — the duplicate key concatenation is not injective -/

/-- C10: the key `artist + "|" + track + "|" + album` identifies the
distinct triples ("a|b", "c", "d") and ("a", "b|c", "d"), and in a run
containing both (1 s apart) the second — a different song — is suppressed
as a near-duplicate of the first: only one listen is submitted. -/
theorem import_dupe_key_collision :
    dupKey (mkItem "a|b" "c" "d" 0) = dupKey (mkItem "a" "b|c" "d" nsPerSecond) ∧
    ((mkItem "a|b" "c" "d" 0).artistName, (mkItem "a|b" "c" "d" 0).trackName,
      (mkItem "a|b" "c" "d" 0).albumName) ≠
      ((mkItem "a" "b|c" "d" nsPerSecond).artistName,
       (mkItem "a" "b|c" "d" nsPerSecond).trackName,
       (mkItem "a" "b|c" "d" nsPerSecond).albumName) ∧
    (importRun cfgAll submitOK
        [mkItem "a|b" "c" "d" 0, mkItem "a" "b|c" "d" nsPerSecond] []).1.length = 1 := by
  decide

/-! ## C6 — token check before every search, 5-minute refresh margin -/

/-- Helper: `authenticate` never returns the do-nothing outcome
`([], s, none)`: it either fails before the request (carrying an error),
fails at the request (carrying an error), or performs a token request. -/
theorem authenticate_ne_nop (env : SpotifyEnv) (s : ClientState) :
    authenticate env s ≠ ([], s, none) := by
  unfold authenticate
  split
  · intro habs; simp at habs
  · cases h : env.authResult with
    | error e => intro habs; simp at habs
    | ok p => cases p; intro habs; simp at habs

/-- C6: the staleness test compares against the expiry minus the 300 s
(5-minute) margin; `ensureToken` refreshes via `authenticate` exactly when
the cached token is absent or the current time is strictly past that
margin, and does nothing otherwise; and `searchEntity` always runs the
token check first — its trace is the `ensureToken` trace, followed by the
network search exactly when the token step did not fail. -/
theorem ensure_token_policy (env : SpotifyEnv) (s : ClientState) :
    (staleToken env s = true ↔ (s.accessToken = "" ∨ env.now > s.tokenExpiry - 300)) ∧
    (ensureToken env s = authenticate env s ↔ staleToken env s = true) ∧
    (ensureToken env s = ([], s, none) ↔ staleToken env s = false) ∧
    (∀ q ty, (searchEntity env s q ty).1 = (ensureToken env s).1 ∨
       (searchEntity env s q ty).1 = (ensureToken env s).1 ++ [.directSearch q ty]) := by
  have hiff : staleToken env s = true ↔ (s.accessToken = "" ∨ env.now > s.tokenExpiry - 300) := by
    simp [staleToken]
  refine ⟨hiff, ?_, ?_, ?_⟩
  · constructor
    · intro heq
      by_contra hstale
      have hfalse : staleToken env s = false := by
        cases hst : staleToken env s with
        | true => exact absurd hst hstale
        | false => rfl
      rw [ensureToken, hfalse] at heq
      exact absurd heq.symm (authenticate_ne_nop env s)
    · intro hstale
      rw [ensureToken, hstale]
      rfl
  · constructor
    · intro heq
      cases hst : staleToken env s with
      | false => rfl
      | true =>
        rw [ensureToken, hst] at heq
        exact absurd heq (authenticate_ne_nop env s)
    · intro hfresh
      rw [ensureToken, hfresh]
      rfl
  · intro q ty
    unfold searchEntity
    cases he : (ensureToken env s).2.2 with
    | some e => left; simp [he]
    | none =>
      right
      cases hs : env.search q ty with
      | error e => simp [he, hs]
      | ok r => simp [he, hs]

/-! ## C1 — provider searches and the Request Queue -/

/-- Helper: `authenticate` submits nothing to the Request Queue. -/
theorem authenticate_noQueue (env : SpotifyEnv) (s : ClientState) :
    ((authenticate env s).1.any isQueuedSearch) = false := by
  unfold authenticate
  split
  · rfl
  · cases h : env.authResult with
    | error e => simp [isQueuedSearch]
    | ok p => cases p; simp [isQueuedSearch]

/-- Helper: `ensureToken` submits nothing to the Request Queue. -/
theorem ensureToken_noQueue (env : SpotifyEnv) (s : ClientState) :
    ((ensureToken env s).1.any isQueuedSearch) = false := by
  unfold ensureToken
  split
  · exact authenticate_noQueue env s
  · rfl

/-- Helper: `searchEntity` submits nothing to the Request Queue — its one
network search is issued directly. -/
theorem searchEntity_noQueue (env : SpotifyEnv) (s : ClientState) (q : String)
    (ty : SearchType) :
    ((searchEntity env s q ty).1.any isQueuedSearch) = false := by
  simp only [searchEntity]
  split
  · simpa using ensureToken_noQueue env s
  · split
    · simp [List.any_append, isQueuedSearch]
      simpa using ensureToken_noQueue env s
    · simp [List.any_append, isQueuedSearch]
      simpa using ensureToken_noQueue env s

/-- Helper: strategy 1 submits nothing to the Request Queue. -/
theorem strat1_noQueue (env : SpotifyEnv) (as : List String) :
    ∀ s, ((strat1 env as s).1.any isQueuedSearch) = false := by
  induction as with
  | nil => intro s; rfl
  | cons a rest ih =>
    intro s
    simp only [strat1]
    split
    · exact ih s
    · split
      · simpa using searchEntity_noQueue env s _ .artist
      · split
        · simpa using searchEntity_noQueue env s _ .artist
        · simp [List.any_append, searchEntity_noQueue env s _ .artist, ih]

/-- Helper: strategy 2 submits nothing to the Request Queue. -/
theorem strat2_noQueue (env : SpotifyEnv) (as : List String) :
    ∀ s, ((strat2 env as s).1.any isQueuedSearch) = false := by
  induction as with
  | nil => intro s; rfl
  | cons a rest ih =>
    intro s
    simp only [strat2]
    split
    · simpa using searchEntity_noQueue env s _ .artist
    · split
      · simpa using searchEntity_noQueue env s _ .artist
      · simp [List.any_append, searchEntity_noQueue env s _ .artist, ih]

/-- Helper: strategy 3 submits nothing to the Request Queue. -/
theorem strat3_noQueue (env : SpotifyEnv) (as : List String) :
    ∀ s, ((strat3 env as s).1.any isQueuedSearch) = false := by
  induction as with
  | nil => intro s; rfl
  | cons a rest ih =>
    intro s
    simp only [strat3]
    split
    · simpa using searchEntity_noQueue env s _ .artist
    · split
      · simpa using searchEntity_noQueue env s _ .artist
      · simp [List.any_append, searchEntity_noQueue env s _ .artist, ih]

/-- Helper: strategy 4 submits nothing to the Request Queue. -/
theorem strat4_noQueue (env : SpotifyEnv) (as : List String) (s : ClientState) :
    ((strat4 env as s).1.any isQueuedSearch) = false := by
  simp only [strat4]
  split
  · simpa using searchEntity_noQueue env s _ .artist
  · split
    · simpa using searchEntity_noQueue env s _ .artist
    · simpa using searchEntity_noQueue env s _ .artist

/-- C1 (amended): no call of the artist-artwork cascade passes through the
Request Queue's `Submit`.  `searchEntity` issues its network search
directly on the Spotify client, and `GetArtistImages` (which, like
`GetAlbumImages`, performs all its searches via `searchEntity`) therefore
produces runs whose traces contain no queued submission at all — the
queue is constructed in `NewSpotifyClient` and stopped in `Shutdown` but
no search is ever submitted to it. -/
theorem searches_bypass_queue (env : SpotifyEnv) :
    (∀ s q ty, ((searchEntity env s q ty).1.any isQueuedSearch) = false) ∧
    (∀ s aliases, ((getArtistImages env s aliases).1.any isQueuedSearch) = false) := by
  refine ⟨fun s q ty => searchEntity_noQueue env s q ty, fun s aliases => ?_⟩
  simp only [getArtistImages]
  split
  · exact strat1_noQueue env _ s
  · exact strat1_noQueue env _ s
  · split
    · simp [strat1_noQueue env _ s, strat2_noQueue env _ _]
    · simp [strat1_noQueue env _ s, strat2_noQueue env _ _]
    · split
      · simp [strat1_noQueue env _ s, strat2_noQueue env _ _, strat3_noQueue env _ _]
      · simp [strat1_noQueue env _ s, strat2_noQueue env _ _, strat3_noQueue env _ _]
      · split
        · split
          · simp [strat1_noQueue env _ s, strat2_noQueue env _ _, strat3_noQueue env _ _,
              strat4_noQueue env _ _]
          · simp [strat1_noQueue env _ s, strat2_noQueue env _ _, strat3_noQueue env _ _,
              strat4_noQueue env _ _]
          · simp [strat1_noQueue env _ s, strat2_noQueue env _ _, strat3_noQueue env _ _,
              strat4_noQueue env _ _]
        · simp [strat1_noQueue env _ s, strat2_noQueue env _ _, strat3_noQueue env _ _]

/-- Provider oracle in which no query ever matches: romanization is
unavailable, and every search succeeds with an empty artists page. -/
def envMiss : SpotifyEnv :=
  { now := 0, clientID := "id", clientSecret := "secret",
    authResult := .ok ("tok", 3600),
    search := fun _ _ => .ok { artistsPage := some [], albumsPage := none },
    romanize := fun _ => "" }

/-- A client state holding a token far from expiry. -/
def stFresh : ClientState := { accessToken := "tok", tokenExpiry := 1000000 }

/-- Counterexample to C1 as stated: a concrete `GetArtistImages` run whose
trace contains a network search that was issued directly — and no
submission through the queue — so it is false that every search reaches
the network via the queue's `Submit`. -/
theorem searches_bypass_queue_cex :
    ((getArtistImages envMiss stFresh ["A"]).1.any isDirectSearch) = true ∧
    ((getArtistImages envMiss stFresh ["A"]).1.any isQueuedSearch) = false := by decide

/-! ## C4 — strict priority order of the artist cascade -/

/-- Stage 1 of the cascade as `GetArtistImages` runs it (romanized
exact-phrase queries, from the initial client state). -/
def artistCascadeStep1 (env : SpotifyEnv) (s : ClientState) (aliases : List String) :
    List SpotifyEvent × ClientState × StratOut :=
  strat1 env (uniqueIgnoringCase aliases) s

/-- Stage 2 of the cascade (original exact-phrase queries, from the state
stage 1 left). -/
def artistCascadeStep2 (env : SpotifyEnv) (s : ClientState) (aliases : List String) :
    List SpotifyEvent × ClientState × StratOut :=
  strat2 env (uniqueIgnoringCase aliases) (artistCascadeStep1 env s aliases).2.1

/-- Stage 3 of the cascade (unquoted original queries, from the state
stage 2 left). -/
def artistCascadeStep3 (env : SpotifyEnv) (s : ClientState) (aliases : List String) :
    List SpotifyEvent × ClientState × StratOut :=
  strat3 env (uniqueIgnoringCase aliases) (artistCascadeStep2 env s aliases).2.1

/-- Stage 4 of the cascade (one OR-combined exact-phrase query, from the
state stage 3 left). -/
def artistCascadeStep4 (env : SpotifyEnv) (s : ClientState) (aliases : List String) :
    List SpotifyEvent × ClientState × StratOut :=
  strat4 env (uniqueIgnoringCase aliases) (artistCascadeStep3 env s aliases).2.1

/-- C4: `GetArtistImages` honours the strict priority order of its four
query strategies — whenever an earlier stage finds an image, its URL is
the function's result, regardless of what any later stage would return
(later stages are not even run); and when stage 1–3 find nothing and
stage 4 finds nothing (or is skipped because at most one alias remains),
the function reports the not-found sentinel rather than a search error. -/
theorem artist_cascade_priority (env : SpotifyEnv) (s : ClientState) (aliases : List String) :
    (∀ url, (artistCascadeStep1 env s aliases).2.2 = .found url →
        (getArtistImages env s aliases).2.2 = .ok url) ∧
    (∀ url, (artistCascadeStep1 env s aliases).2.2 = .noMatch →
        (artistCascadeStep2 env s aliases).2.2 = .found url →
        (getArtistImages env s aliases).2.2 = .ok url) ∧
    (∀ url, (artistCascadeStep1 env s aliases).2.2 = .noMatch →
        (artistCascadeStep2 env s aliases).2.2 = .noMatch →
        (artistCascadeStep3 env s aliases).2.2 = .found url →
        (getArtistImages env s aliases).2.2 = .ok url) ∧
    (∀ url, (artistCascadeStep1 env s aliases).2.2 = .noMatch →
        (artistCascadeStep2 env s aliases).2.2 = .noMatch →
        (artistCascadeStep3 env s aliases).2.2 = .noMatch →
        (uniqueIgnoringCase aliases).length > 1 →
        (artistCascadeStep4 env s aliases).2.2 = .found url →
        (getArtistImages env s aliases).2.2 = .ok url) ∧
    ((artistCascadeStep1 env s aliases).2.2 = .noMatch →
        (artistCascadeStep2 env s aliases).2.2 = .noMatch →
        (artistCascadeStep3 env s aliases).2.2 = .noMatch →
        ((uniqueIgnoringCase aliases).length > 1 →
          (artistCascadeStep4 env s aliases).2.2 = .noMatch) →
        (getArtistImages env s aliases).2.2 = .error artistNotFoundErr) := by
  refine ⟨?_, ?_, ?_, ?_, ?_⟩
  · intro url h1
    simp only [artistCascadeStep1] at h1
    simp only [getArtistImages]
    rw [h1]
  · intro url h1 h2
    simp only [artistCascadeStep2, artistCascadeStep1] at h1 h2
    simp only [getArtistImages]
    rw [h1, h2]
  · intro url h1 h2 h3
    simp only [artistCascadeStep3, artistCascadeStep2, artistCascadeStep1] at h1 h2 h3
    simp only [getArtistImages]
    rw [h1, h2, h3]
  · intro url h1 h2 h3 hlen h4
    simp only [artistCascadeStep4, artistCascadeStep3, artistCascadeStep2,
      artistCascadeStep1] at h1 h2 h3 h4
    simp only [getArtistImages]
    rw [h1, h2, h3, if_pos hlen, h4]
  · intro h1 h2 h3 h4
    simp only [artistCascadeStep4, artistCascadeStep3, artistCascadeStep2,
      artistCascadeStep1] at h1 h2 h3 h4
    simp only [getArtistImages]
    by_cases hlen : (uniqueIgnoringCase aliases).length > 1
    · rw [h1, h2, h3, if_pos hlen, h4 hlen]
    · rw [h1, h2, h3, if_neg hlen]

/-- Provider oracle for the spec's own example: alias 米津玄師 romanizes to
"Kenshi Yonezu"; the romanized exact-phrase query returns the exactly
matching entity with image `img1`, while every other query would return an
entity with a different image — so only priority order explains the
result. -/
def envKenshi : SpotifyEnv :=
  { now := 0, clientID := "id", clientSecret := "secret",
    authResult := .ok ("tok", 3600),
    search := fun q _ =>
      if q == "artist:\"Kenshi Yonezu\"" then
        .ok { artistsPage := some [{ name := "Kenshi Yonezu", images := [{ url := "img1" }] }],
              albumsPage := none }
      else
        .ok { artistsPage := some [{ name := "Kenshi Yonezu", images := [{ url := "imgX" }] }],
              albumsPage := none },
    romanize := fun a => if a == "米津玄師" then "Kenshi Yonezu" else "" }

/-- Witness for `artist_cascade_priority`: on aliases
[米津玄師, "Kenshi Yonezu"] the romanized-quoted stage matches exactly, and
the cascade returns its image `img1` — not the `imgX` that the later
unquoted stage would have produced. -/
theorem artist_cascade_priority_witness :
    (artistCascadeStep1 envKenshi stFresh ["米津玄師", "Kenshi Yonezu"]).2.2 =
      .found "img1" ∧
    (getArtistImages envKenshi stFresh ["米津玄師", "Kenshi Yonezu"]).2.2 = .ok "img1" :=
  ⟨by decide,
   (artist_cascade_priority envKenshi stFresh ["米津玄師", "Kenshi Yonezu"]).1 "img1"
     (by decide)⟩

/-! ## C5 — acceptance rule of the romanized strategy -/

/-- Provider oracle for the acceptance-rule analysis: alias "AAA"
romanizes to "BBB", and the provider returns a single artist named "BBBX"
(which contains the romanization but not the alias), carrying an image. -/
def envC5 : SpotifyEnv :=
  { now := 0, clientID := "id", clientSecret := "secret",
    authResult := .ok ("tok", 3600),
    search := fun _ _ =>
      .ok { artistsPage := some [{ name := "BBBX", images := [{ url := "img" }] }],
            albumsPage := none },
    romanize := fun a => if a == "AAA" then "BBB" else "" }

/-- C5 (amended): in the romanized strategy, a returned entity is accepted
exactly when its name case-insensitively equals the romanization, equals
the alias, or contains the alias — containment of the romanization is
*not* part of the test.  Under a fresh token and a successful search for
the romanized phrase, the strategy's outcome on a single alias is
determined by scanning the returned page with exactly that
three-disjunct rule. -/
theorem strat1_accept_rule (env : SpotifyEnv) (s : ClientState) (a r : String)
    (arts : List SpotifyArtistObj)
    (hrom : env.romanize a = r) (hne : r ≠ "")
    (hfresh : staleToken env s = false)
    (hok : env.search ("artist:\"" ++ r ++ "\"") .artist =
        .ok { artistsPage := some arts, albumsPage := none }) :
    ((strat1 env [a] s).2.2 =
      match firstAcceptedImage (accept1 a r) arts with
      | some url => StratOut.found url
      | none => StratOut.noMatch) ∧
    (∀ name, accept1 a r name =
      (goEqualFold name r || goEqualFold name a ||
        goContains (goToLower name) (goToLower a))) := by
  refine ⟨?_, fun name => rfl⟩
  have hbeq : (r == "") = false := by
    cases hb : r == "" with
    | true => exact absurd (by simpa using hb) hne
    | false => rfl
  have hse : searchEntity env s ("artist:\"" ++ r ++ "\"") .artist =
      ([SpotifyEvent.directSearch ("artist:\"" ++ r ++ "\"") .artist], s,
        .ok { artistsPage := some arts, albumsPage := none }) := by
    simp [searchEntity, ensureToken, hfresh, hok]
  cases hf : firstAcceptedImage (accept1 a r) arts with
  | some url => simp [strat1, hrom, hbeq, hse, hf]
  | none => simp [strat1, hrom, hbeq, hse, hf]

/-- Witness for `strat1_accept_rule` in the `envC5` scenario: the page's
only entity "BBBX" fails the three-disjunct test against alias "AAA" and
romanization "BBB", so the strategy reports no match. -/
theorem strat1_accept_rule_witness :
    (envC5.romanize "AAA" = "BBB" ∧ ("BBB" : String) ≠ "" ∧
     staleToken envC5 stFresh = false ∧
     envC5.search ("artist:\"" ++ "BBB" ++ "\"") .artist =
       .ok { artistsPage := some [{ name := "BBBX", images := [{ url := "img" }] }],
             albumsPage := none }) ∧
    (((strat1 envC5 ["AAA"] stFresh).2.2 =
        match firstAcceptedImage (accept1 "AAA" "BBB")
            [{ name := "BBBX", images := [{ url := "img" }] }] with
        | some url => StratOut.found url
        | none => StratOut.noMatch) ∧
     (∀ name, accept1 "AAA" "BBB" name =
        (goEqualFold name "BBB" || goEqualFold name "AAA" ||
          goContains (goToLower name) (goToLower "AAA")))) :=
  ⟨⟨by decide, by decide, by decide, rfl⟩,
   strat1_accept_rule envC5 stFresh "AAA" "BBB"
     [{ name := "BBBX", images := [{ url := "img" }] }]
     (by decide) (by decide) (by decide) rfl⟩

/-- Counterexample to C5 as stated: the spec's four-disjunct rule accepts
the returned name "BBBX" for alias "AAA" with romanization "BBB" (it
contains the romanization), but the code's test rejects it, and the
romanized strategy concretely reports no match even though the provider
returned that entity with an image. -/
theorem strat1_accept_rule_cex :
    accept1Spec "AAA" "BBB" "BBBX" = true ∧
    accept1 "AAA" "BBB" "BBBX" = false ∧
    (strat1 envC5 ["AAA"] stFresh).2.2 = .noMatch := by decide

/-! ## C7 — concurrent token refresh is not single-flight -/

/-- Where one caller of `ensureToken` stands: before its staleness check,
after having observed a stale token (and therefore committed to calling
`authenticate`), or done.  The source takes no lock between the check and
the refresh, so other callers may run in between. -/
inductive ThreadPhase where
  | beforeCheck
  | observedStale
  | finished
deriving DecidableEq, Repr

/-- Shared state of several concurrent `ensureToken` callers: the client's
token state (the shared mutable fields of `SpotifyClient`), each caller's
phase, and how many token-endpoint calls have been made. -/
structure ConcSt where
  shared : ClientState
  phases : List ThreadPhase
  tokenCalls : Nat
deriving Repr

/-- One atomic step of caller `i`, taken from the source's `ensureToken`:
at `beforeCheck` it evaluates `staleToken` on the shared state and either
commits to refreshing or finishes; at `observedStale` it runs
`authenticate` against the (possibly meanwhile updated) shared state,
counting the token-endpoint requests that call performs. -/
def concStep (env : SpotifyEnv) (st : ConcSt) (i : Nat) : ConcSt :=
  match st.phases[i]? with
  | some .beforeCheck =>
    if staleToken env st.shared
    then { st with phases := st.phases.set i .observedStale }
    else { st with phases := st.phases.set i .finished }
  | some .observedStale =>
    let a := authenticate env st.shared
    { shared := a.2.1, phases := st.phases.set i .finished,
      tokenCalls := st.tokenCalls + (a.1.filter isTokenRequest).length }
  | _ => st

/-- Runs a schedule (a sequence of caller indices) over the shared
state. -/
def concRun (env : SpotifyEnv) (sched : List Nat) (st : ConcSt) : ConcSt :=
  sched.foldl (concStep env) st

/-- C7 (amended): nothing in the code serializes check-and-refresh, so two
concurrent callers that both observe the absent/expired token each make
their own token-endpoint call: under the interleaving
check₀, check₁, refresh₀, refresh₁ (legal because no lock is held between
a caller's check and its refresh), the token endpoint is called twice —
there is no single-flight coalescing. -/
theorem token_refresh_not_single_flight (env : SpotifyEnv)
    (h1 : env.clientID ≠ "") (h2 : env.clientSecret ≠ "") :
    (concRun env [0, 1, 0, 1]
        { shared := { accessToken := "", tokenExpiry := 0 },
          phases := [.beforeCheck, .beforeCheck], tokenCalls := 0 }).tokenCalls = 2 := by
  have hid : (env.clientID == "") = false := by
    cases hb : env.clientID == "" with
    | true => exact absurd (by simpa using hb) h1
    | false => rfl
  have hsec : (env.clientSecret == "") = false := by
    cases hb : env.clientSecret == "" with
    | true => exact absurd (by simpa using hb) h2
    | false => rfl
  cases hA : env.authResult with
  | error e =>
    simp [concRun, concStep, staleToken, authenticate, hid, hsec, hA, isTokenRequest]
  | ok p =>
    cases p with
    | mk tok expiresIn =>
      simp [concRun, concStep, staleToken, authenticate, hid, hsec, hA, isTokenRequest]

/-- Witness for `token_refresh_not_single_flight` with concrete
credentials and a successful token endpoint. -/
theorem token_refresh_not_single_flight_witness :
    (envMiss.clientID ≠ "" ∧ envMiss.clientSecret ≠ "") ∧
    (concRun envMiss [0, 1, 0, 1]
        { shared := { accessToken := "", tokenExpiry := 0 },
          phases := [.beforeCheck, .beforeCheck], tokenCalls := 0 }).tokenCalls = 2 :=
  ⟨⟨by decide, by decide⟩,
   token_refresh_not_single_flight envMiss (by decide) (by decide)⟩

/-- Counterexample to C7 as stated: the claim demands exactly one
token-endpoint call for concurrent searches over a stale token, but the
concrete two-caller interleaving makes two. -/
theorem token_refresh_not_single_flight_cex :
    (concRun envMiss [0, 1, 0, 1]
        { shared := { accessToken := "", tokenExpiry := 0 },
          phases := [.beforeCheck, .beforeCheck], tokenCalls := 0 }).tokenCalls = 2 ∧
    ¬ (concRun envMiss [0, 1, 0, 1]
        { shared := { accessToken := "", tokenExpiry := 0 },
          phases := [.beforeCheck, .beforeCheck], tokenCalls := 0 }).tokenCalls = 1 := by
  decide
